import Mathlib

/-!
Verification of the layering engine of `containerd-attributes-client`.

The development shallowly embeds the Go sources of the repository:
`aritfact/artifact.go` (chain builder), `aritfact/applier.go` (diff applier
and mount-option parsers) and `aritfact/image.go` (image unpack driver and
`IsUnpacked`).  The snapshot store and the content source are external
collaborators consumed through interfaces; they are embedded as records of
operations over an explicit state, whose concrete instance follows the
snapshot-store contract of the specification (section 4.3).
-/

namespace Artifacts

/-- A content digest, e.g. "sha256:...". -/
abbrev Digest := String

deriving instance DecidableEq for Except

/-- OCI layer descriptor: digest, media type, size (`ocispec.Descriptor`). -/
structure Descriptor where
  digest : Digest
  mediaType : String
  size : Int
deriving DecidableEq, Repr

/-- `Artifact` from artifact.go: a wrapper around one layer descriptor. -/
structure Artifact where
  blob : Descriptor
deriving DecidableEq, Repr

/-- Error kinds mirroring `containerd/errdefs` sentinel errors as a closed
tagged variant (spec section 9). -/
inductive ErrKind where
  | notFound
  | alreadyExists
  | invalidArgument
  | generic
deriving DecidableEq, Repr

/-- An error value: a kind (matched by `errdefs.IsNotFound` etc.) and a
message. -/
structure Err where
  kind : ErrKind
  msg : String
deriving DecidableEq, Repr

/-- `errdefs.IsNotFound` on an error possibly wrapped with `%w`. -/
def errIsNotFound (e : Err) : Bool := e.kind == ErrKind.notFound

/-- `errdefs.IsAlreadyExists` on an error possibly wrapped with `%w`. -/
def errIsAlreadyExists (e : Err) : Bool := e.kind == ErrKind.alreadyExists

/-- `errdefs.IsInvalidArgument`. -/
def errIsInvalidArgument (e : Err) : Bool := e.kind == ErrKind.invalidArgument

/-- `fmt.Errorf("...: %w", err)`: wrapping keeps the error kind, so the
`errdefs` predicates still match the wrapped error. -/
def wrapErr (m : String) (e : Err) : Err := ⟨e.kind, m ++ ": " ++ e.msg⟩

/-- `fmt.Errorf` without `%w`: a fresh error of no recognized kind. -/
def mkErr (m : String) : Err := ⟨ErrKind.generic, m⟩

@[simp] theorem errIsNotFound_wrap (m : String) (e : Err) :
    errIsNotFound (wrapErr m e) = errIsNotFound e := rfl

@[simp] theorem errIsAlreadyExists_wrap (m : String) (e : Err) :
    errIsAlreadyExists (wrapErr m e) = errIsAlreadyExists e := rfl

/-- Modelled from the spec: the hash step of the Merkle-style chain-ID fold
(`identity.ChainID` lives in the external `opencontainers/image-spec`
library, not in this repository).  The stand-in is injective on its two
arguments up to string framing, which is all the claims need. -/
def hashD (p d : Digest) : Digest := "H(" ++ p ++ "|" ++ d ++ ")"

/-- Modelled from the spec: the empty-chain sentinel, chain ID of `[]`. -/
def emptyChainID : Digest := ""

/-- Modelled from the spec: `chainID([]) = sentinel`,
`chainID([d0..dn]) = hash(chainID([d0..dn-1]) ++ dn)` — the Merkle-style
fold over the ordered digest list (spec section 3). -/
def chainID (ds : List Digest) : Digest := ds.foldl hashD emptyChainID

@[simp] theorem chainID_nil : chainID [] = emptyChainID := rfl

theorem chainID_append_last (ds : List Digest) (d : Digest) :
    chainID (ds ++ [d]) = hashD (chainID ds) d := by
  simp [chainID, List.foldl_append]

/-- One observable call by the chain builder against its collaborators
(snapshot store operations and diff-applier invocations). -/
inductive Ev where
  | statEv (cid : String)
  | prepareEv (key parent : String)
  | commitEv (cid key : String)
  | removeEv (key : String)
  | applyEv (dgst : Digest)
deriving DecidableEq, Repr

/-- The collaborator interfaces consumed by the chain builder
(`snapshots.Snapshotter`, `diff.Applier` and the build-key generator),
as a record of operations over an explicit state `σ`, mirroring the
dependency-injected Go interfaces. -/
structure Ops (σ : Type) where
  stat : σ → String → σ × Option Err
  prepare : σ → String → String → σ × Option Err
  commit : σ → String → String → σ × Option Err
  remove : σ → String → σ × Option Err
  freshKey : σ → String → σ × String
  applierApply : σ → Descriptor → σ × Except Err Descriptor

/-- Error standing for exhaustion of the fuel that bounds the Go
prepare-retry loop; never returned when enough fuel is supplied. -/
def fuelErr : Err := mkErr "out of fuel"

/-- Placeholder value for `artifacts[len(artifacts)-1]` on an empty slice
(the Go code would panic there; no caller reaches it). -/
def dummyArtifact : Artifact := ⟨⟨"", "", 0⟩⟩

/-- The deferred cleanup of artifact.go lines 116-126: on a non-nil error
the prepared view's build key is removed; the removal's own error is only
logged and the original error is returned unchanged. -/
def deferredCleanup (O : Ops σ) (s : σ) (key : String) (e : Err) : σ × Option Err :=
  ((O.remove s key).1, some e)

/-- artifact.go lines 128-143: the straight-line tail of `applyArtifacts`
after a successful prepare — invoke the diff applier, compare the reported
digest with the declared one, commit under the chain ID; every failure
goes through the deferred cleanup. -/
def afterPrepare (O : Ops σ) (s : σ) (key : String) (cid : Digest) (artifact : Artifact) :
    σ × Option Err :=
  match O.applierApply s artifact.blob with
  | (s1, Except.error e) =>
      deferredCleanup O s1 key (wrapErr ("failed to extract layer " ++ artifact.blob.digest) e)
  | (s1, Except.ok diffDesc) =>
      if diffDesc.digest = artifact.blob.digest then
        match O.commit s1 cid key with
        | (s2, some e) => deferredCleanup O s2 key (wrapErr ("failed to commit snapshot " ++ key) e)
        | (s2, none) => (s2, none)
      else
        deferredCleanup O s1 key (mkErr ("wrong diff id calculated on extraction " ++ diffDesc.digest))

mutual

/-- `applyArtifacts` (artifact.go lines 79-144): compute parent and target
chain IDs, take the last artifact, and run the prepare loop.  `fuel`
bounds the Go `for` loop and the recursion on the all-but-last prefix. -/
def applyArtifacts (O : Ops σ) (fuel : Nat) (artifacts : List Artifact)
    (chain : List Digest) (s : σ) : σ × Option Err :=
  match fuel with
  | 0 => (s, some fuelErr)
  | Nat.succ f =>
      applyLoop O f artifacts chain (chainID chain.dropLast) (chainID chain)
        (artifacts.getLast?.getD dummyArtifact) s

/-- The `for` loop of artifact.go lines 90-115: mint a fresh build key and
prepare; on Not-Found with more than one artifact, recursively build the
all-but-last prefix, set `artifacts = nil` and retry; on Already-Exists
retry with a different key; any other error is wrapped and returned. -/
def applyLoop (O : Ops σ) (fuel : Nat) (artifacts : List Artifact) (chain : List Digest)
    (parent cid : Digest) (artifact : Artifact) (s : σ) : σ × Option Err :=
  match fuel with
  | 0 => (s, some fuelErr)
  | Nat.succ f =>
      let pk := O.freshKey s cid
      match O.prepare pk.1 pk.2 parent with
      | (s1, none) => afterPrepare O s1 pk.2 cid artifact
      | (s1, some e) =>
          if errIsNotFound e ∧ 1 < artifacts.length then
            match applyArtifacts O f artifacts.dropLast chain.dropLast s1 with
            | (s2, some e2) =>
                if errIsAlreadyExists e2 then
                  applyLoop O f [] chain parent cid artifact s2
                else (s2, some e2)
            | (s2, none) => applyLoop O f [] chain parent cid artifact s2
          else if errIsAlreadyExists e then
            applyLoop O f artifacts chain parent cid artifact s1
          else
            (s1, some (wrapErr ("failed to prepare extraction snapshot " ++ pk.2) e))

end

/-- `ApplyArtifactsWithOpts` (artifact.go lines 28-50): stat the full
chain ID; when absent, run `applyArtifacts` and swallow Already-Exists;
return the chain ID. -/
def ApplyArtifactsWithOpts (O : Ops σ) (fuel : Nat) (artifacts : List Artifact) (s : σ) :
    σ × Except Err Digest :=
  let chain := artifacts.map (fun a => a.blob.digest)
  let cid := chainID chain
  match O.stat s cid with
  | (s1, none) => (s1, Except.ok cid)
  | (s1, some e) =>
      if errIsNotFound e then
        match applyArtifacts O fuel artifacts chain s1 with
        | (s2, some e2) =>
            if errIsAlreadyExists e2 then (s2, Except.ok cid) else (s2, Except.error e2)
        | (s2, none) => (s2, Except.ok cid)
      else
        (s1, Except.error (wrapErr ("failed to stat snapshot " ++ cid) e))

/-- `ApplyArtifactWithOpts` (artifact.go lines 56-77): stat the chain ID of
`chain ++ [digest]`; when absent, apply the single layer; `applied` is true
exactly when `applyArtifacts` returned nil, false when the stat hit or an
Already-Exists error was swallowed. -/
def ApplyArtifactWithOpts (O : Ops σ) (fuel : Nat) (artifact : Artifact)
    (chain : List Digest) (s : σ) : σ × Except Err Bool :=
  let cid := chainID (chain ++ [artifact.blob.digest])
  match O.stat s cid with
  | (s1, none) => (s1, Except.ok false)
  | (s1, some e) =>
      if errIsNotFound e then
        match applyArtifacts O fuel [artifact] (chain ++ [artifact.blob.digest]) s1 with
        | (s2, some e2) =>
            if errIsAlreadyExists e2 then (s2, Except.ok false) else (s2, Except.error e2)
        | (s2, none) => (s2, Except.ok true)
      else
        (s1, Except.error (wrapErr ("failed to stat snapshot " ++ cid) e))

/-! ## Concrete snapshot-store state

Modelled from the spec: the snapshot store is an external capability
(section 4.3 of the spec gives its contract: `stat` is an existence check
with no side effect, `prepare` fails Not-Found on a missing parent and
Already-Exists on a key collision, `commit` fails Already-Exists on an
existing chain ID, `remove` discards a prepared view).  The state also
keeps a trace of every call, used to express absence of operations. -/

structure SnapState where
  committed : List String
  active : List String
  nextKey : Nat
  events : List Ev
deriving DecidableEq, Repr

/-- Record one collaborator call in the trace. -/
def logEv (s : SnapState) (e : Ev) : SnapState := { s with events := s.events ++ [e] }

/-- Modelled from the spec: `stat(chainID) -> found|not-found`, existence
check only, no side effect (spec section 4.3). -/
def statOp (s : SnapState) (cid : String) : SnapState × Option Err :=
  let s1 := logEv s (Ev.statEv cid)
  if cid ∈ s.committed then (s1, none)
  else (s1, some ⟨ErrKind.notFound, "snapshot " ++ cid ++ " does not exist"⟩)

/-- Modelled from the spec: `prepare(buildKey, parent)` fails Already-Exists
if the build key collides, Not-Found if the parent chain ID has no snapshot
(the empty-chain sentinel acts as the always-present root), and otherwise
creates a writable prepared view under the key (spec section 4.3). -/
def prepareOp (s : SnapState) (key parent : String) : SnapState × Option Err :=
  let s1 := logEv s (Ev.prepareEv key parent)
  if key ∈ s.active ∨ key ∈ s.committed then
    (s1, some ⟨ErrKind.alreadyExists, "key " ++ key ++ " already exists"⟩)
  else if parent = emptyChainID ∨ parent ∈ s.committed then
    ({ s1 with active := key :: s1.active }, none)
  else
    (s1, some ⟨ErrKind.notFound, "parent snapshot " ++ parent ++ " does not exist"⟩)

/-- Modelled from the spec: `commit(chainID, buildKey)` fails Already-Exists
if a snapshot for the chain ID exists, otherwise seals the prepared view:
the key leaves the active set and the chain ID becomes committed
(spec section 4.3). -/
def commitOp (s : SnapState) (cid key : String) : SnapState × Option Err :=
  let s1 := logEv s (Ev.commitEv cid key)
  if cid ∈ s.committed then
    (s1, some ⟨ErrKind.alreadyExists, "snapshot " ++ cid ++ " already exists"⟩)
  else if key ∈ s.active then
    ({ s1 with active := s1.active.erase key, committed := cid :: s1.committed }, none)
  else
    (s1, some ⟨ErrKind.notFound, "key " ++ key ++ " does not exist"⟩)

/-- Modelled from the spec: `remove(buildKey)` discards the prepared view;
removing an absent key reports Not-Found, which callers' cleanup paths
ignore (spec section 4.3). -/
def removeOp (s : SnapState) (key : String) : SnapState × Option Err :=
  let s1 := logEv s (Ev.removeEv key)
  if key ∈ s.active then ({ s1 with active := s1.active.erase key }, none)
  else (s1, some ⟨ErrKind.notFound, "key " ++ key ++ " does not exist"⟩)

/-- The build key minted at artifact.go line 91:
`fmt.Sprintf(snapshots.UnpackKeyFormat, uniquePart(), chainID)`; the
unique part is modelled by a counter. -/
def mkKey (n : Nat) (cid : String) : String := "extract-" ++ toString n ++ " " ++ cid

/-- `uniquePart()` + `UnpackKeyFormat`: mint a globally fresh build key. -/
def freshKeyOp (s : SnapState) (cid : String) : SnapState × String :=
  ({ s with nextKey := s.nextKey + 1 }, mkKey s.nextKey cid)

/-- Wrap a pure diff-applier behavior `f` as a traced operation. -/
def applierOp (f : Descriptor → Except Err Descriptor) (s : SnapState) (d : Descriptor) :
    SnapState × Except Err Descriptor :=
  (logEv s (Ev.applyEv d.digest), f d)

/-- The concrete collaborator record over `SnapState`, with the diff
applier's behavior given by the pure function `f`. -/
def snapOps (f : Descriptor → Except Err Descriptor) : Ops SnapState :=
  ⟨statOp, prepareOp, commitOp, removeOp, freshKeyOp, applierOp f⟩

/-- Media type of the descriptor built at applier.go line 66. -/
def layerMediaType : String := "application/vnd.oci.image.layer.v1.tar"

/-- The behavior of `artifactApplier.Apply` as seen by the chain builder on
success: a descriptor carrying the declared digest and size
(applier.go lines 65-69). -/
def okApplier (d : Descriptor) : Except Err Descriptor :=
  Except.ok ⟨d.digest, layerMediaType, d.size⟩

/-! ## Diff applier (applier.go) -/

/-- `mount.Mount`: a mount with a type, a source and option strings. -/
structure Mount where
  type : String
  source : String
  options : List String
deriving DecidableEq, Repr

/-- An invalid-argument error wrapping `errdefs.ErrInvalidArgument`. -/
def invalidArg (m : String) : Err := ⟨ErrKind.invalidArgument, m⟩

/-- `strings.HasPrefix`, computed structurally on the character list. -/
def hasPfx (s p : String) : Bool := p.data.isPrefixOf s.data

/-- `strings.TrimPrefix` for a prefix of `n` characters (callers pass the
length of a prefix already checked with `hasPfx`). -/
def dropChars (s : String) (n : Nat) : String := ⟨s.data.drop n⟩

/-- Length of a string in characters. -/
def strLen (s : String) : Nat := s.data.length

/-- `strings.HasSuffix`, computed structurally on the character list. -/
def hasSfx (s p : String) : Bool := p.data.isSuffixOf s.data

/-- `strings.TrimSuffix` for a suffix of `n` characters. -/
def dropSfx (s : String) (n : Nat) : String := ⟨s.data.take (s.data.length - n)⟩

/-- Worker for `strings.Split` with a one-character separator. -/
def splitChAux (sep : Char) : List Char → List Char → List (List Char)
  | [], acc => [acc.reverse]
  | c :: cs, acc =>
      if c = sep then acc.reverse :: splitChAux sep cs []
      else splitChAux sep cs (c :: acc)

/-- `strings.Split(s, sep)` for a one-character separator: Go semantics,
so the empty string splits to `[""]`. -/
def splitStr (s : String) (sep : Char) : List String :=
  (splitChAux sep s.data []).map (fun cs => ⟨cs⟩)

/-- The option scan of `getOverlayPath` (applier.go lines 114-120): the
last `upperdir=` option gives the upper directory and the last `lowerdir=`
option the lower directories. -/
def overlayScan (options : List String) : String × List String :=
  options.foldl
    (fun (acc : String × List String) o =>
      if hasPfx o "upperdir=" then (dropChars o (strLen "upperdir="), acc.2)
      else if hasPfx o "lowerdir=" then
        (acc.1, splitStr (dropChars o (strLen "lowerdir=")) ':')
      else acc)
    ("", [])

/-- `getOverlayPath` (applier.go lines 110-126): scan the option strings;
an empty upper directory is an invalid-argument error. -/
def getOverlayPath (options : List String) : Except Err (String × List String) :=
  if (overlayScan options).1 = "" then Except.error (invalidArg "upperdir not found")
  else Except.ok (overlayScan options)

/-- The inner loop of `getAufsPath` (applier.go lines 144-159): walk the
`:`-separated branches of one `br:` option, accumulating the single `=rw`
upper branch and the `=ro+wh` lower branches; a second rw branch, a lower
branch before the rw branch, or any other suffix is an invalid-argument
error. -/
def aufsBranches : List String → String → List String → Except Err (String × List String)
  | [], upper, lower => Except.ok (upper, lower)
  | b :: bs, upper, lower =>
      if hasSfx b "=rw" then
        if upper ≠ "" then Except.error (invalidArg "multiple rw branch found")
        else aufsBranches bs (dropSfx b (strLen "=rw")) lower
      else if hasSfx b "=ro+wh" then
        if upper = "" then Except.error (invalidArg "rw branch be first")
        else aufsBranches bs upper (lower ++ [dropSfx b (strLen "=ro+wh")])
      else Except.error (invalidArg "unhandled aufs suffix")

/-- The outer loop of `getAufsPath` (applier.go lines 137-160): options
without the `br:` prefix are skipped; branch state accumulates across
options. -/
def aufsOptions : List String → String → List String → Except Err (String × List String)
  | [], upper, lower => Except.ok (upper, lower)
  | o :: os, upper, lower =>
      if hasPfx o "br:" then
        match aufsBranches (splitStr (dropChars o (strLen "br:")) ':') upper lower with
        | Except.error e => Except.error e
        | Except.ok ul => aufsOptions os ul.1 ul.2
      else aufsOptions os upper lower

/-- `getAufsPath` (applier.go lines 130-165): parse
`br:<upper>=rw[:<lower>=ro+wh]*` options; no rw branch at all is an
invalid-argument error. -/
def getAufsPath (options : List String) : Except Err (String × List String) :=
  match aufsOptions options "" [] with
  | Except.error e => Except.error e
  | Except.ok ul =>
      if ul.1 = "" then Except.error (invalidArg "rw branch not found")
      else Except.ok ul

/-- The generic path of `apply` (applier.go lines 104-107):
`mount.WithTempMount` acquires a temporary mount of the full view
(`tempMnt`, an external operation that may fail) and content is pushed
into its root. -/
def genericApply (push : String → Except Err Unit) (tempMnt : Except Err String) :
    Except Err Unit :=
  match tempMnt with
  | Except.error e => Except.error e
  | Except.ok root => push root

/-- `apply` (applier.go lines 72-108): a single overlay mount outside a
user namespace, or a single aufs mount, pushes directly into the parsed
upper directory; an invalid-argument parse error falls back to the generic
temporary-mount path; any other parse error is returned; every other mount
shape takes the generic path. -/
def applyFn (push : String → Except Err Unit) (tempMnt : Except Err String)
    (inUserNS : Bool) (mounts : List Mount) : Except Err Unit :=
  match mounts with
  | [m] =>
      if m.type = "overlay" then
        if inUserNS then genericApply push tempMnt
        else
          match getOverlayPath m.options with
          | Except.error e =>
              if errIsInvalidArgument e then genericApply push tempMnt
              else Except.error e
          | Except.ok ul => push ul.1
      else if m.type = "aufs" then
        match getAufsPath m.options with
        | Except.error e =>
            if errIsInvalidArgument e then genericApply push tempMnt
            else Except.error e
        | Except.ok ul => push ul.1
      else genericApply push tempMnt
  | _ => genericApply push tempMnt

/-- Content-hash of a byte stream (stand-in for the digest a verifying
applier would compute over the bytes it consumed; injective on the
bytes). -/
def digestOfBytes (bytes : String) : Digest := "sha256+" ++ bytes

/-- `artifactApplier.Apply` (applier.go lines 30-70): fetch the
descriptor's byte stream from the content source, push it through `apply`,
drain the stream, and on success return a descriptor whose digest and size
are copied from the input descriptor.  `fetch` is the content source,
`push path bytes` the external file-store push into `path`, `tempMnt` the
temporary-mount acquisition. -/
def artifactApplierApply (fetch : Descriptor → Except Err String)
    (push : String → String → Except Err Unit) (tempMnt : Except Err String)
    (inUserNS : Bool) (mounts : List Mount) (desc : Descriptor) :
    Except Err Descriptor :=
  match fetch desc with
  | Except.error e => Except.error e
  | Except.ok bytes =>
      match applyFn (fun path => push path bytes) tempMnt inUserNS mounts with
      | Except.error e => Except.error e
      | Except.ok _ => Except.ok ⟨desc.digest, layerMediaType, desc.size⟩

/-! ## Image unpack driver (image.go) -/

/-- `image.IsUnpacked` (image.go lines 129-149): recompute the root chain
ID from the image's ordered layer digests (`RootFS`, an external manifest
resolution given here as `rootFS`), perform one snapshot-store stat, and
report found / not-found / error without mutating anything. -/
def IsUnpacked (rootFS : Except Err (List Digest)) (s : SnapState) :
    SnapState × Except Err Bool :=
  match rootFS with
  | Except.error e => (s, Except.error e)
  | Except.ok diffs =>
      match statOp s (chainID diffs) with
      | (s1, none) => (s1, Except.ok true)
      | (s1, some e) =>
          if errIsNotFound e then (s1, Except.ok false) else (s1, Except.error e)

/-- Content-store label state of the unpack driver: the snapshot-store
state plus the `containerd.io/uncompressed` labels written by
`cs.Update`. -/
structure UnpackSt where
  snap : SnapState
  labels : List (String × String)
deriving DecidableEq, Repr

/-- The per-layer loop of `image.Unpack` (image.go lines 216-237): apply
each artifact onto the chain so far; when `ApplyArtifactWithOpts` reports
`applied = true`, write the per-layer uncompressed label; on error stop. -/
def unpackLayersLoop (f : Descriptor → Except Err Descriptor) (fuel : Nat) :
    List Artifact → List Digest → UnpackSt → UnpackSt × Option Err
  | [], _, u => (u, none)
  | a :: rest, chain, u =>
      match ApplyArtifactWithOpts (snapOps f) fuel a chain u.snap with
      | (s1, Except.error e) => ({ u with snap := s1 }, some e)
      | (s1, Except.ok unpacked) =>
          unpackLayersLoop f fuel rest (chain ++ [a.blob.digest])
            { snap := s1,
              labels :=
                if unpacked then u.labels ++ [(a.blob.digest, a.blob.digest)]
                else u.labels }

/-! ## Helper lemmas about the concrete store operations -/

theorem statOp_found {s : SnapState} {cid : String} (h : cid ∈ s.committed) :
    statOp s cid = (logEv s (Ev.statEv cid), none) := by
  simp [statOp, h]

theorem statOp_missing {s : SnapState} {cid : String} (h : cid ∉ s.committed) :
    statOp s cid =
      (logEv s (Ev.statEv cid),
       some ⟨ErrKind.notFound, "snapshot " ++ cid ++ " does not exist"⟩) := by
  simp [statOp, h]

theorem prepareOp_ok {s : SnapState} {key parent : String}
    (hka : key ∉ s.active) (hkc : key ∉ s.committed)
    (hp : parent = emptyChainID ∨ parent ∈ s.committed) :
    prepareOp s key parent =
      ({ logEv s (Ev.prepareEv key parent) with
          active := key :: s.active }, none) := by
  have h1 : ¬(key ∈ s.active ∨ key ∈ s.committed) := by
    intro h; cases h with
    | inl h => exact hka h
    | inr h => exact hkc h
  simp [prepareOp, h1, hp, logEv]

theorem prepareOp_notFound {s : SnapState} {key parent : String}
    (hka : key ∉ s.active) (hkc : key ∉ s.committed)
    (hp1 : parent ≠ emptyChainID) (hp2 : parent ∉ s.committed) :
    prepareOp s key parent =
      (logEv s (Ev.prepareEv key parent),
       some ⟨ErrKind.notFound, "parent snapshot " ++ parent ++ " does not exist"⟩) := by
  simp [prepareOp, hka, hkc, hp1, hp2]

theorem commitOp_ok {s : SnapState} {cid key : String}
    (hc : cid ∉ s.committed) (hk : key ∈ s.active) :
    commitOp s cid key =
      ({ logEv s (Ev.commitEv cid key) with
          active := s.active.erase key, committed := cid :: s.committed }, none) := by
  simp [commitOp, hc, hk, logEv]

theorem removeOp_ok {s : SnapState} {key : String} (hk : key ∈ s.active) :
    removeOp s key =
      ({ logEv s (Ev.removeEv key) with active := s.active.erase key }, none) := by
  simp [removeOp, hk, logEv]

/-! ## Claim C7 -/

/-- C7: the chain ID is a pure function of the ordered digest list — equal
ordered digest sequences (and hence every recomputation) yield the same
chain ID — and the chain ID of a nonempty chain is determined by the chain
ID of its all-but-last prefix together with the last digest, via the
Merkle-style hash step. -/
theorem C7_chainID_pure_merkle_fold :
    (∀ l1 l2 : List Digest, l1 = l2 → chainID l1 = chainID l2) ∧
    (∀ (ds : List Digest) (d : Digest), chainID (ds ++ [d]) = hashD (chainID ds) d) :=
  ⟨fun _ _ h => congrArg chainID h, chainID_append_last⟩

/-- Witness for C7 at a concrete two-layer chain. -/
theorem C7_chainID_pure_merkle_fold_witness :
    chainID ["sha256:a", "sha256:b"] = chainID ["sha256:a", "sha256:b"] ∧
    chainID (["sha256:a"] ++ ["sha256:b"]) = hashD (chainID ["sha256:a"]) "sha256:b" :=
  ⟨C7_chainID_pure_merkle_fold.1 _ _ rfl,
   C7_chainID_pure_merkle_fold.2 ["sha256:a"] "sha256:b"⟩

/-! ## Claim C1 -/

/-- C1 fails on the code: `artifactApplier.Apply` succeeds while the
content source hands it bytes whose digest differs from the declared one,
and it still returns the declared digest from the input descriptor — not
the digest of the bytes it actually consumed (applier.go lines 65-69 build
the result descriptor from `desc.Digest`).  The external file-store push
is taken to accept the bytes. -/
theorem C1_counterexample_declared_digest :
    artifactApplierApply (fun _ => Except.ok "garbage-bytes") (fun _ _ => Except.ok ())
        (Except.ok "/tmp/view") false [⟨"overlay", "", ["upperdir=/u"]⟩]
        ⟨"sha256:abc", "tar+gzip", 3⟩
      = Except.ok ⟨"sha256:abc", layerMediaType, 3⟩ ∧
    digestOfBytes "garbage-bytes" ≠ "sha256:abc" := by
  exact ⟨by decide, by decide⟩

/-- C1 amended: a successful `artifactApplier.Apply` always returns a
descriptor whose digest and size are copied verbatim from the input
descriptor, whatever bytes were consumed; the chain builder's digest
comparison therefore never observes a mismatch from this applier. -/
theorem C1_apply_returns_declared_digest
    (fetch : Descriptor → Except Err String) (push : String → String → Except Err Unit)
    (tempMnt : Except Err String) (inUserNS : Bool) (mounts : List Mount)
    (desc r : Descriptor)
    (h : artifactApplierApply fetch push tempMnt inUserNS mounts desc = Except.ok r) :
    r.digest = desc.digest ∧ r.size = desc.size ∧ r.mediaType = layerMediaType := by
  unfold artifactApplierApply at h
  cases hf : fetch desc with
  | error e => rw [hf] at h; exact absurd h (by simp)
  | ok bytes =>
      rw [hf] at h
      dsimp only at h
      cases ha : applyFn (fun path => push path bytes) tempMnt inUserNS mounts with
      | error e => rw [ha] at h; exact absurd h (by simp)
      | ok u =>
          rw [ha] at h
          simp only [Except.ok.injEq] at h
          subst h
          exact ⟨rfl, rfl, rfl⟩

/-- Witness for the amended C1 at a concrete successful apply. -/
theorem C1_apply_returns_declared_digest_witness :
    (⟨"sha256:z", layerMediaType, 1⟩ : Descriptor).digest =
      (⟨"sha256:z", "tar", 1⟩ : Descriptor).digest ∧
    (⟨"sha256:z", layerMediaType, 1⟩ : Descriptor).size =
      (⟨"sha256:z", "tar", 1⟩ : Descriptor).size ∧
    (⟨"sha256:z", layerMediaType, 1⟩ : Descriptor).mediaType = layerMediaType :=
  C1_apply_returns_declared_digest (fun _ => Except.ok "b") (fun _ _ => Except.ok ())
    (Except.ok "/r") false [] ⟨"sha256:z", "tar", 1⟩ ⟨"sha256:z", layerMediaType, 1⟩ rfl

/-! ## Claim C9 -/

theorem getOverlayPath_error_invalid {options : List String} {e : Err}
    (h : getOverlayPath options = Except.error e) :
    e.kind = ErrKind.invalidArgument := by
  unfold getOverlayPath at h
  split at h
  · simp only [Except.error.injEq] at h
    rw [← h]; rfl
  · exact absurd h (by simp)

theorem aufsBranches_error_invalid :
    ∀ (bs : List String) (upper : String) (lower : List String) (e : Err),
      aufsBranches bs upper lower = Except.error e → e.kind = ErrKind.invalidArgument := by
  intro bs
  induction bs with
  | nil =>
      intro u l e h
      exact absurd h (by simp [aufsBranches])
  | cons b rest ih =>
      intro u l e h
      unfold aufsBranches at h
      split at h
      · split at h
        · simp only [Except.error.injEq] at h; rw [← h]; rfl
        · exact ih _ _ _ h
      · split at h
        · split at h
          · simp only [Except.error.injEq] at h; rw [← h]; rfl
          · exact ih _ _ _ h
        · simp only [Except.error.injEq] at h; rw [← h]; rfl

theorem aufsOptions_error_invalid :
    ∀ (os : List String) (upper : String) (lower : List String) (e : Err),
      aufsOptions os upper lower = Except.error e → e.kind = ErrKind.invalidArgument := by
  intro os
  induction os with
  | nil =>
      intro u l e h
      exact absurd h (by simp [aufsOptions])
  | cons o rest ih =>
      intro u l e h
      unfold aufsOptions at h
      split at h
      · split at h
        · simp only [Except.error.injEq] at h
          subst h
          exact aufsBranches_error_invalid _ _ _ _ (by assumption)
        · exact ih _ _ _ h
      · exact ih _ _ _ h

theorem getAufsPath_error_invalid {options : List String} {e : Err}
    (h : getAufsPath options = Except.error e) :
    e.kind = ErrKind.invalidArgument := by
  unfold getAufsPath at h
  split at h
  · simp only [Except.error.injEq] at h
    subst h
    exact aufsOptions_error_invalid _ _ _ _ (by assumption)
  · split at h
    · simp only [Except.error.injEq] at h; rw [← h]; rfl
    · exact absurd h (by simp)

/-- C9: every parse failure of the overlay and aufs option grammars is an
Invalid-Argument error, and on such a failure `apply` falls back to the
generic temporary-mount path instead of failing (a non-Invalid-Argument
parse error would be propagated, but the parsers produce none). -/
theorem C9_invalid_options_fall_back :
    (∀ (options : List String) (e : Err), getOverlayPath options = Except.error e →
        e.kind = ErrKind.invalidArgument) ∧
    (∀ (options : List String) (e : Err), getAufsPath options = Except.error e →
        e.kind = ErrKind.invalidArgument) ∧
    (∀ (push : String → Except Err Unit) (tempMnt : Except Err String)
        (src : String) (options : List String) (e : Err),
      getOverlayPath options = Except.error e →
      applyFn push tempMnt false [⟨"overlay", src, options⟩] = genericApply push tempMnt) ∧
    (∀ (push : String → Except Err Unit) (tempMnt : Except Err String)
        (inUserNS : Bool) (src : String) (options : List String) (e : Err),
      getAufsPath options = Except.error e →
      applyFn push tempMnt inUserNS [⟨"aufs", src, options⟩] = genericApply push tempMnt) := by
  refine ⟨fun _ _ h => getOverlayPath_error_invalid h,
          fun _ _ h => getAufsPath_error_invalid h, ?_, ?_⟩
  · intro push tempMnt src options e h
    have hk := getOverlayPath_error_invalid h
    simp [applyFn, h, errIsInvalidArgument, hk]
  · intro push tempMnt inUserNS src options e h
    have hk := getAufsPath_error_invalid h
    simp [applyFn, h, errIsInvalidArgument, hk]

/-- Witness for C9: an overlay mount without an `upperdir=` option and an
aufs mount without an rw branch both parse to Invalid-Argument and take
the generic path. -/
theorem C9_invalid_options_fall_back_witness :
    (getOverlayPath ["lowerdir=/l"] = Except.error (invalidArg "upperdir not found") →
      (invalidArg "upperdir not found").kind = ErrKind.invalidArgument) ∧
    applyFn (fun _ => Except.ok ()) (Except.ok "/tmp/root") false
        [⟨"overlay", "", ["lowerdir=/l"]⟩]
      = genericApply (fun _ => Except.ok ()) (Except.ok "/tmp/root") ∧
    applyFn (fun _ => Except.ok ()) (Except.ok "/tmp/root") false
        [⟨"aufs", "", ["br:/x=what"]⟩]
      = genericApply (fun _ => Except.ok ()) (Except.ok "/tmp/root") :=
  ⟨fun h => C9_invalid_options_fall_back.1 ["lowerdir=/l"] _ h,
   C9_invalid_options_fall_back.2.2.1 (fun _ => Except.ok ()) (Except.ok "/tmp/root")
     "" ["lowerdir=/l"] (invalidArg "upperdir not found") (by decide),
   C9_invalid_options_fall_back.2.2.2 (fun _ => Except.ok ()) (Except.ok "/tmp/root")
     false "" ["br:/x=what"] (invalidArg "unhandled aufs suffix") (by decide)⟩

/-! ## Step lemmas for the chain-builder recursion -/

theorem errIsNotFound_iff {e : Err} : errIsNotFound e = true ↔ e.kind = ErrKind.notFound := by
  simp [errIsNotFound]

theorem errIsAlreadyExists_iff {e : Err} :
    errIsAlreadyExists e = true ↔ e.kind = ErrKind.alreadyExists := by
  simp [errIsAlreadyExists]

theorem notFound_of_alreadyExists {e : Err} (h : errIsAlreadyExists e = true) :
    errIsNotFound e = false := by
  rw [errIsAlreadyExists_iff] at h
  simp [errIsNotFound, h]

theorem applyArtifacts_succ {σ : Type} (O : Ops σ) (f : Nat) (arts : List Artifact)
    (chain : List Digest) (s : σ) :
    applyArtifacts O (f + 1) arts chain s =
      applyLoop O f arts chain (chainID chain.dropLast) (chainID chain)
        (arts.getLast?.getD dummyArtifact) s := rfl

theorem applyLoop_prep_ok {σ : Type} {O : Ops σ} {f : Nat} {arts : List Artifact}
    {chain : List Digest} {parent cid : Digest} {artifact : Artifact} {s s1 s2 : σ}
    {k : String}
    (hfk : O.freshKey s cid = (s1, k)) (hprep : O.prepare s1 k parent = (s2, none)) :
    applyLoop O (f + 1) arts chain parent cid artifact s =
      afterPrepare O s2 k cid artifact := by
  simp only [applyLoop, hfk, hprep]

theorem applyLoop_prep_notFound_rec_ok {σ : Type} {O : Ops σ} {f : Nat}
    {arts : List Artifact} {chain : List Digest} {parent cid : Digest}
    {artifact : Artifact} {s s1 s2 s3 : σ} {k : String} {e : Err}
    (hfk : O.freshKey s cid = (s1, k)) (hprep : O.prepare s1 k parent = (s2, some e))
    (hnf : errIsNotFound e = true) (hlen : 1 < arts.length)
    (hrec : applyArtifacts O f arts.dropLast chain.dropLast s2 = (s3, none)) :
    applyLoop O (f + 1) arts chain parent cid artifact s =
      applyLoop O f [] chain parent cid artifact s3 := by
  simp only [applyLoop, hfk, hprep, hnf, hlen, hrec, and_self, if_true, true_and]

theorem applyLoop_prep_notFound_rec_fail {σ : Type} {O : Ops σ} {f : Nat}
    {arts : List Artifact} {chain : List Digest} {parent cid : Digest}
    {artifact : Artifact} {s s1 s2 s3 : σ} {k : String} {e e2 : Err}
    (hfk : O.freshKey s cid = (s1, k)) (hprep : O.prepare s1 k parent = (s2, some e))
    (hnf : errIsNotFound e = true) (hlen : 1 < arts.length)
    (hrec : applyArtifacts O f arts.dropLast chain.dropLast s2 = (s3, some e2))
    (hae : errIsAlreadyExists e2 = false) :
    applyLoop O (f + 1) arts chain parent cid artifact s = (s3, some e2) := by
  simp only [applyLoop, hfk, hprep, hnf, hlen, hrec, hae, and_self, if_true, true_and,
    Bool.false_eq_true, if_false]

theorem applyLoop_prep_already {σ : Type} {O : Ops σ} {f : Nat}
    {arts : List Artifact} {chain : List Digest} {parent cid : Digest}
    {artifact : Artifact} {s s1 s2 : σ} {k : String} {e : Err}
    (hfk : O.freshKey s cid = (s1, k)) (hprep : O.prepare s1 k parent = (s2, some e))
    (hae : errIsAlreadyExists e = true) :
    applyLoop O (f + 1) arts chain parent cid artifact s =
      applyLoop O f arts chain parent cid artifact s2 := by
  have hnf := notFound_of_alreadyExists hae
  simp only [applyLoop, hfk, hprep, hnf, hae, Bool.false_eq_true, false_and, if_false, if_true]

theorem applyLoop_prep_fatal {σ : Type} {O : Ops σ} {f : Nat}
    {arts : List Artifact} {chain : List Digest} {parent cid : Digest}
    {artifact : Artifact} {s s1 s2 : σ} {k : String} {e : Err}
    (hfk : O.freshKey s cid = (s1, k)) (hprep : O.prepare s1 k parent = (s2, some e))
    (hno : ¬(errIsNotFound e = true ∧ 1 < arts.length))
    (hae : errIsAlreadyExists e = false) :
    applyLoop O (f + 1) arts chain parent cid artifact s =
      (s2, some (wrapErr ("failed to prepare extraction snapshot " ++ k) e)) := by
  simp only [applyLoop, hfk, hprep, hno, hae, Bool.false_eq_true, if_false]

theorem afterPrepare_apply_error {σ : Type} {O : Ops σ} {s s1 : σ} {k : String}
    {cid : Digest} {artifact : Artifact} {e : Err}
    (ha : O.applierApply s artifact.blob = (s1, Except.error e)) :
    afterPrepare O s k cid artifact =
      ((O.remove s1 k).1,
       some (wrapErr ("failed to extract layer " ++ artifact.blob.digest) e)) := by
  simp only [afterPrepare, ha, deferredCleanup]

theorem afterPrepare_mismatch {σ : Type} {O : Ops σ} {s s1 : σ} {k : String}
    {cid : Digest} {artifact : Artifact} {dd : Descriptor}
    (ha : O.applierApply s artifact.blob = (s1, Except.ok dd))
    (hne : dd.digest ≠ artifact.blob.digest) :
    afterPrepare O s k cid artifact =
      ((O.remove s1 k).1,
       some (mkErr ("wrong diff id calculated on extraction " ++ dd.digest))) := by
  simp only [afterPrepare, ha, hne, deferredCleanup, if_false]

theorem afterPrepare_commit_ok {σ : Type} {O : Ops σ} {s s1 s2 : σ} {k : String}
    {cid : Digest} {artifact : Artifact} {dd : Descriptor}
    (ha : O.applierApply s artifact.blob = (s1, Except.ok dd))
    (heq : dd.digest = artifact.blob.digest)
    (hc : O.commit s1 cid k = (s2, none)) :
    afterPrepare O s k cid artifact = (s2, none) := by
  simp only [afterPrepare, ha, heq, hc, if_true]

theorem afterPrepare_commit_error {σ : Type} {O : Ops σ} {s s1 s2 : σ} {k : String}
    {cid : Digest} {artifact : Artifact} {dd : Descriptor} {e : Err}
    (ha : O.applierApply s artifact.blob = (s1, Except.ok dd))
    (heq : dd.digest = artifact.blob.digest)
    (hc : O.commit s1 cid k = (s2, some e)) :
    afterPrepare O s k cid artifact =
      ((O.remove s2 k).1, some (wrapErr ("failed to commit snapshot " ++ k) e)) := by
  simp only [afterPrepare, ha, heq, hc, deferredCleanup, if_true]

theorem applyArtifactsWithOpts_stat_hit {σ : Type} {O : Ops σ} {fuel : Nat}
    {arts : List Artifact} {s s1 : σ}
    (hstat : O.stat s (chainID (arts.map fun a => a.blob.digest)) = (s1, none)) :
    ApplyArtifactsWithOpts O fuel arts s =
      (s1, Except.ok (chainID (arts.map fun a => a.blob.digest))) := by
  simp only [ApplyArtifactsWithOpts, hstat]

theorem applyArtifactsWithOpts_build {σ : Type} {O : Ops σ} {fuel : Nat}
    {arts : List Artifact} {s s1 s2 : σ} {e : Err}
    (hstat : O.stat s (chainID (arts.map fun a => a.blob.digest)) = (s1, some e))
    (hnf : errIsNotFound e = true)
    (hrun : applyArtifacts O fuel arts (arts.map fun a => a.blob.digest) s1 = (s2, none)) :
    ApplyArtifactsWithOpts O fuel arts s =
      (s2, Except.ok (chainID (arts.map fun a => a.blob.digest))) := by
  simp only [ApplyArtifactsWithOpts, hstat, hnf, hrun, if_true]

theorem applyArtifactWithOpts_stat_hit {σ : Type} {O : Ops σ} {fuel : Nat}
    {artifact : Artifact} {chain : List Digest} {s s1 : σ}
    (hstat : O.stat s (chainID (chain ++ [artifact.blob.digest])) = (s1, none)) :
    ApplyArtifactWithOpts O fuel artifact chain s = (s1, Except.ok false) := by
  simp only [ApplyArtifactWithOpts, hstat]

theorem applyArtifactWithOpts_applied {σ : Type} {O : Ops σ} {fuel : Nat}
    {artifact : Artifact} {chain : List Digest} {s s1 s2 : σ} {e : Err}
    (hstat : O.stat s (chainID (chain ++ [artifact.blob.digest])) = (s1, some e))
    (hnf : errIsNotFound e = true)
    (hrun : applyArtifacts O fuel [artifact] (chain ++ [artifact.blob.digest]) s1 =
      (s2, none)) :
    ApplyArtifactWithOpts O fuel artifact chain s = (s2, Except.ok true) := by
  simp only [ApplyArtifactWithOpts, hstat, hnf, hrun, if_true]

theorem applyArtifactWithOpts_swallow {σ : Type} {O : Ops σ} {fuel : Nat}
    {artifact : Artifact} {chain : List Digest} {s s1 s2 : σ} {e e2 : Err}
    (hstat : O.stat s (chainID (chain ++ [artifact.blob.digest])) = (s1, some e))
    (hnf : errIsNotFound e = true)
    (hrun : applyArtifacts O fuel [artifact] (chain ++ [artifact.blob.digest]) s1 =
      (s2, some e2))
    (hae : errIsAlreadyExists e2 = true) :
    ApplyArtifactWithOpts O fuel artifact chain s = (s2, Except.ok false) := by
  simp only [ApplyArtifactWithOpts, hstat, hnf, hrun, hae, if_true]

theorem applyArtifactWithOpts_fatal {σ : Type} {O : Ops σ} {fuel : Nat}
    {artifact : Artifact} {chain : List Digest} {s s1 s2 : σ} {e e2 : Err}
    (hstat : O.stat s (chainID (chain ++ [artifact.blob.digest])) = (s1, some e))
    (hnf : errIsNotFound e = true)
    (hrun : applyArtifacts O fuel [artifact] (chain ++ [artifact.blob.digest]) s1 =
      (s2, some e2))
    (hae : errIsAlreadyExists e2 = false) :
    ApplyArtifactWithOpts O fuel artifact chain s = (s2, Except.error e2) := by
  simp only [ApplyArtifactWithOpts, hstat, hnf, hrun, hae, if_true, Bool.false_eq_true, if_false]

/-! ## Claim C3 -/

/-- Demo layer with digest sha256:d0. -/
def demoA0 : Artifact := ⟨⟨"sha256:d0", "tar", 100⟩⟩

/-- Demo layer with digest sha256:d1. -/
def demoA1 : Artifact := ⟨⟨"sha256:d1", "tar", 50⟩⟩

/-- Demo layer with digest sha256:d2. -/
def demoA2 : Artifact := ⟨⟨"sha256:d2", "tar", 10⟩⟩

/-- An initially empty snapshot store. -/
def demoS0 : SnapState := ⟨[], [], 0, []⟩

/-- First build of the two-layer demo sequence on the empty store. -/
def demoRun1 : SnapState × Except Err Digest :=
  ApplyArtifactsWithOpts (snapOps okApplier) 4 [demoA0, demoA1] demoS0

/-- C3: when the stat of the full chain ID hits, `ApplyArtifactsWithOpts`
returns success having performed exactly one stat — the state gains one
stat event and nothing else, so neither Prepare nor the Diff Applier (nor,
through it, the Content Source) is invoked and no snapshot-store entry is
created; consequently a second apply of an already-built two-layer
sequence adds exactly one stat event to the first run's final state. -/
theorem C3_stat_fast_path_idempotent :
    (∀ (f : Descriptor → Except Err Descriptor) (fuel : Nat) (arts : List Artifact)
        (s : SnapState),
      chainID (arts.map fun a => a.blob.digest) ∈ s.committed →
      ApplyArtifactsWithOpts (snapOps f) fuel arts s =
        (logEv s (Ev.statEv (chainID (arts.map fun a => a.blob.digest))),
         Except.ok (chainID (arts.map fun a => a.blob.digest)))) ∧
    demoRun1.2 = Except.ok (chainID ["sha256:d0", "sha256:d1"]) ∧
    ApplyArtifactsWithOpts (snapOps okApplier) 4 [demoA0, demoA1] demoRun1.1 =
      (logEv demoRun1.1 (Ev.statEv (chainID ["sha256:d0", "sha256:d1"])),
       Except.ok (chainID ["sha256:d0", "sha256:d1"])) := by
  refine ⟨?_, by decide, by decide⟩
  intro f fuel arts s h
  exact applyArtifactsWithOpts_stat_hit (statOp_found h)

/-- Witness for C3 with the stat-hit hypothesis discharged at a store
that already contains the one-layer chain. -/
theorem C3_stat_fast_path_idempotent_witness :
    ApplyArtifactsWithOpts (snapOps okApplier) 4 [demoA0]
        ⟨[chainID ["sha256:d0"]], [], 0, []⟩ =
      (logEv ⟨[chainID ["sha256:d0"]], [], 0, []⟩ (Ev.statEv (chainID ["sha256:d0"])),
       Except.ok (chainID ["sha256:d0"])) :=
  C3_stat_fast_path_idempotent.1 okApplier 4 [demoA0]
    ⟨[chainID ["sha256:d0"]], [], 0, []⟩ (by decide)

/-! ## Claim C2 -/

/-- A diff applier reporting a digest that differs from every declared
demo digest. -/
def badApplier (d : Descriptor) : Except Err Descriptor :=
  Except.ok ⟨"sha256:bogus", layerMediaType, d.size⟩

/-- C2: when the diff applier reports a digest different from the declared
one (and the preceding prepare succeeded), `applyArtifacts` returns the
fatal wrong-diff-id error, and the final state shows that no commit was
issued for the chain ID (the trace gains only the prepare, apply and
remove events) and that the prepared view was removed (the active set is
restored). -/
theorem C2_digest_mismatch_fatal
    (f : Descriptor → Except Err Descriptor) (n : Nat) (arts : List Artifact)
    (chain : List Digest) (s : SnapState) (dd : Descriptor)
    (hka : mkKey s.nextKey (chainID chain) ∉ s.active)
    (hkc : mkKey s.nextKey (chainID chain) ∉ s.committed)
    (hp : chainID chain.dropLast = emptyChainID ∨ chainID chain.dropLast ∈ s.committed)
    (hf : f (arts.getLast?.getD dummyArtifact).blob = Except.ok dd)
    (hne : dd.digest ≠ (arts.getLast?.getD dummyArtifact).blob.digest) :
    applyArtifacts (snapOps f) (n + 2) arts chain s =
      ({ committed := s.committed, active := s.active, nextKey := s.nextKey + 1,
         events := s.events ++
           [Ev.prepareEv (mkKey s.nextKey (chainID chain)) (chainID chain.dropLast),
            Ev.applyEv (arts.getLast?.getD dummyArtifact).blob.digest,
            Ev.removeEv (mkKey s.nextKey (chainID chain))] },
       some (mkErr ("wrong diff id calculated on extraction " ++ dd.digest))) := by
  have hfk : (snapOps f).freshKey s (chainID chain) =
      ({ s with nextKey := s.nextKey + 1 }, mkKey s.nextKey (chainID chain)) := rfl
  have hprep := @prepareOp_ok { s with nextKey := s.nextKey + 1 }
    (mkKey s.nextKey (chainID chain)) (chainID chain.dropLast) hka hkc hp
  rw [show (n:Nat) + 2 = (n+1)+1 from rfl, applyArtifacts_succ]
  rw [applyLoop_prep_ok hfk hprep]
  have ha : (snapOps f).applierApply
      ({ logEv { s with nextKey := s.nextKey + 1 }
          (Ev.prepareEv (mkKey s.nextKey (chainID chain)) (chainID chain.dropLast)) with
        active := mkKey s.nextKey (chainID chain) ::
          ({ s with nextKey := s.nextKey + 1 } : SnapState).active })
      ((arts.getLast?.getD dummyArtifact).blob) =
      (logEv ({ logEv { s with nextKey := s.nextKey + 1 }
          (Ev.prepareEv (mkKey s.nextKey (chainID chain)) (chainID chain.dropLast)) with
        active := mkKey s.nextKey (chainID chain) ::
          ({ s with nextKey := s.nextKey + 1 } : SnapState).active })
        (Ev.applyEv (arts.getLast?.getD dummyArtifact).blob.digest),
       Except.ok dd) := by
    show applierOp f _ _ = _
    rw [applierOp, hf]
  rw [afterPrepare_mismatch ha hne]
  rw [show (snapOps f).remove = removeOp from rfl]
  rw [removeOp_ok (by simp [logEv])]
  simp [logEv, List.erase_cons_head]

/-- Witness for C2: a one-layer build on the empty store with an applier
reporting sha256:bogus ends in the wrong-diff-id error, no commit, and a
removed prepared view. -/
theorem C2_digest_mismatch_fatal_witness :
    applyArtifacts (snapOps badApplier) (0 + 2) [demoA0] ["sha256:d0"] demoS0 =
      ({ committed := demoS0.committed, active := demoS0.active,
         nextKey := demoS0.nextKey + 1,
         events := demoS0.events ++
           [Ev.prepareEv (mkKey demoS0.nextKey (chainID ["sha256:d0"]))
              (chainID (["sha256:d0"] : List Digest).dropLast),
            Ev.applyEv ([demoA0].getLast?.getD dummyArtifact).blob.digest,
            Ev.removeEv (mkKey demoS0.nextKey (chainID ["sha256:d0"]))] },
       some (mkErr ("wrong diff id calculated on extraction " ++
         (⟨"sha256:bogus", layerMediaType, 100⟩ : Descriptor).digest))) :=
  C2_digest_mismatch_fatal badApplier 0 [demoA0] ["sha256:d0"] demoS0
    ⟨"sha256:bogus", layerMediaType, 100⟩ (by decide) (by decide) (Or.inl rfl)
    rfl (by decide)

/-! ## Claim C4 -/

/-- C4: on each failure path after a successful prepare — diff-applier
failure, digest mismatch, or commit failure — the build key is removed
before returning (the final state is the one threaded through `remove`)
and the original error is returned unchanged; this holds for every
collaborator record, in particular for stores whose remove fails, so a
removal failure never replaces the original error, and a prepared view
outlives the attempt only by being committed. -/
theorem C4_cleanup_after_failed_build {σ : Type} (O : Ops σ) :
    (∀ (n : Nat) (arts : List Artifact) (chain : List Digest) (s s1 s2 s3 : σ)
        (k : String) (e : Err),
      O.freshKey s (chainID chain) = (s1, k) →
      O.prepare s1 k (chainID chain.dropLast) = (s2, none) →
      O.applierApply s2 (arts.getLast?.getD dummyArtifact).blob = (s3, Except.error e) →
      applyArtifacts O (n + 2) arts chain s =
        ((O.remove s3 k).1,
         some (wrapErr ("failed to extract layer " ++
           (arts.getLast?.getD dummyArtifact).blob.digest) e))) ∧
    (∀ (n : Nat) (arts : List Artifact) (chain : List Digest) (s s1 s2 s3 : σ)
        (k : String) (dd : Descriptor),
      O.freshKey s (chainID chain) = (s1, k) →
      O.prepare s1 k (chainID chain.dropLast) = (s2, none) →
      O.applierApply s2 (arts.getLast?.getD dummyArtifact).blob = (s3, Except.ok dd) →
      dd.digest ≠ (arts.getLast?.getD dummyArtifact).blob.digest →
      applyArtifacts O (n + 2) arts chain s =
        ((O.remove s3 k).1,
         some (mkErr ("wrong diff id calculated on extraction " ++ dd.digest)))) ∧
    (∀ (n : Nat) (arts : List Artifact) (chain : List Digest) (s s1 s2 s3 s4 : σ)
        (k : String) (dd : Descriptor) (e : Err),
      O.freshKey s (chainID chain) = (s1, k) →
      O.prepare s1 k (chainID chain.dropLast) = (s2, none) →
      O.applierApply s2 (arts.getLast?.getD dummyArtifact).blob = (s3, Except.ok dd) →
      dd.digest = (arts.getLast?.getD dummyArtifact).blob.digest →
      O.commit s3 (chainID chain) k = (s4, some e) →
      applyArtifacts O (n + 2) arts chain s =
        ((O.remove s4 k).1,
         some (wrapErr ("failed to commit snapshot " ++ k) e))) := by
  refine ⟨?_, ?_, ?_⟩
  · intro n arts chain s s1 s2 s3 k e hfk hprep ha
    rw [show (n:Nat) + 2 = (n+1)+1 from rfl, applyArtifacts_succ,
      applyLoop_prep_ok hfk hprep, afterPrepare_apply_error ha]
  · intro n arts chain s s1 s2 s3 k dd hfk hprep ha hne
    rw [show (n:Nat) + 2 = (n+1)+1 from rfl, applyArtifacts_succ,
      applyLoop_prep_ok hfk hprep, afterPrepare_mismatch ha hne]
  · intro n arts chain s s1 s2 s3 s4 k dd e hfk hprep ha heq hc
    rw [show (n:Nat) + 2 = (n+1)+1 from rfl, applyArtifacts_succ,
      applyLoop_prep_ok hfk hprep, afterPrepare_commit_error ha heq hc]

/-- Collaborators whose remove always fails and whose commit always
fails, used to witness that cleanup failures do not mask the original
error. -/
def fragileOps : Ops Nat :=
  { stat := fun m _ => (m + 1, some ⟨ErrKind.notFound, "nf"⟩),
    prepare := fun m _ _ => (m + 1, none),
    commit := fun m _ _ => (m + 1, some (mkErr "commit failed")),
    remove := fun m _ => (m + 1, some (mkErr "remove failed")),
    freshKey := fun m _ => (m, "buildkey"),
    applierApply := fun m d => (m + 1, Except.ok ⟨d.digest, layerMediaType, d.size⟩) }

/-- Collaborators whose applier fails and whose remove also fails. -/
def failApplyOps : Ops Nat :=
  { stat := fun m _ => (m + 1, some ⟨ErrKind.notFound, "nf"⟩),
    prepare := fun m _ _ => (m + 1, none),
    commit := fun m _ _ => (m + 1, none),
    remove := fun m _ => (m + 1, some (mkErr "remove failed")),
    freshKey := fun m _ => (m, "buildkey"),
    applierApply := fun m _ => (m + 1, Except.error (mkErr "apply failed")) }

/-- Witness for C4: all three failure paths at concrete collaborators
whose remove fails; the original errors come back unchanged. -/
theorem C4_cleanup_after_failed_build_witness :
    (applyArtifacts failApplyOps (0 + 2) [demoA0] ["sha256:d0"] 0 =
      ((failApplyOps.remove 2 "buildkey").1,
       some (wrapErr ("failed to extract layer " ++
         ([demoA0].getLast?.getD dummyArtifact).blob.digest) (mkErr "apply failed")))) ∧
    (applyArtifacts (snapOps badApplier) (0 + 2) [demoA1] ["sha256:d1"] demoS0 =
      (((snapOps badApplier).remove
          (logEv ({ logEv { demoS0 with nextKey := demoS0.nextKey + 1 }
              (Ev.prepareEv (mkKey 0 (chainID ["sha256:d1"]))
                (chainID (["sha256:d1"] : List Digest).dropLast)) with
            active := mkKey 0 (chainID ["sha256:d1"]) :: demoS0.active })
            (Ev.applyEv "sha256:d1"))
          (mkKey 0 (chainID ["sha256:d1"]))).1,
       some (mkErr ("wrong diff id calculated on extraction " ++
         (⟨"sha256:bogus", layerMediaType, 50⟩ : Descriptor).digest)))) ∧
    (applyArtifacts fragileOps (0 + 2) [demoA0] ["sha256:d0"] 0 =
      ((fragileOps.remove 3 "buildkey").1,
       some (wrapErr ("failed to commit snapshot " ++ "buildkey") (mkErr "commit failed")))) := by
  refine ⟨?_, ?_, ?_⟩
  · exact (C4_cleanup_after_failed_build failApplyOps).1 0 [demoA0] ["sha256:d0"]
      0 0 1 2 "buildkey" (mkErr "apply failed") rfl rfl rfl
  · exact (C4_cleanup_after_failed_build (snapOps badApplier)).2.1 0 [demoA1]
      ["sha256:d1"] demoS0 { demoS0 with nextKey := demoS0.nextKey + 1 } _ _
      (mkKey 0 (chainID ["sha256:d1"])) ⟨"sha256:bogus", layerMediaType, 50⟩
      rfl (by rw [show (snapOps badApplier).prepare = prepareOp from rfl,
        prepareOp_ok (by decide) (by decide) (Or.inl (by decide))])
      rfl (by decide)
  · exact (C4_cleanup_after_failed_build fragileOps).2.2 0 [demoA0] ["sha256:d0"]
      0 0 1 2 3 "buildkey" ⟨"sha256:d0", layerMediaType, 100⟩ (mkErr "commit failed")
      rfl rfl rfl rfl rfl

/-! ## Single-layer success lemmas, shared by several claims -/

theorem snapLoop_single_ok (f : Descriptor → Except Err Descriptor) (m : Nat)
    (arts : List Artifact) (chain : List Digest) (parent cid : Digest)
    (artifact : Artifact) (s : SnapState) (dd : Descriptor)
    (hka : mkKey s.nextKey cid ∉ s.active) (hkc : mkKey s.nextKey cid ∉ s.committed)
    (hp : parent = emptyChainID ∨ parent ∈ s.committed)
    (hcid : cid ∉ s.committed)
    (hfa : f artifact.blob = Except.ok dd) (hdd : dd.digest = artifact.blob.digest) :
    applyLoop (snapOps f) (m + 1) arts chain parent cid artifact s =
      ({ committed := cid :: s.committed, active := s.active, nextKey := s.nextKey + 1,
         events := s.events ++ [Ev.prepareEv (mkKey s.nextKey cid) parent,
           Ev.applyEv artifact.blob.digest, Ev.commitEv cid (mkKey s.nextKey cid)] },
       none) := by
  have hfk : (snapOps f).freshKey s cid =
      ({ s with nextKey := s.nextKey + 1 }, mkKey s.nextKey cid) := rfl
  have hprep := @prepareOp_ok { s with nextKey := s.nextKey + 1 }
    (mkKey s.nextKey cid) parent hka hkc hp
  rw [applyLoop_prep_ok hfk hprep]
  simp only [afterPrepare, snapOps, applierOp, logEv, hfa, hdd, commitOp, deferredCleanup]
  simp [hcid, logEv, List.erase_cons_head, hdd]

theorem snapBuild_single_ok (f : Descriptor → Except Err Descriptor) (n : Nat)
    (arts : List Artifact) (chain : List Digest) (s : SnapState) (dd : Descriptor)
    (hka : mkKey s.nextKey (chainID chain) ∉ s.active)
    (hkc : mkKey s.nextKey (chainID chain) ∉ s.committed)
    (hp : chainID chain.dropLast = emptyChainID ∨ chainID chain.dropLast ∈ s.committed)
    (hcid : chainID chain ∉ s.committed)
    (hfa : f (arts.getLast?.getD dummyArtifact).blob = Except.ok dd)
    (hdd : dd.digest = (arts.getLast?.getD dummyArtifact).blob.digest) :
    applyArtifacts (snapOps f) (n + 2) arts chain s =
      ({ committed := chainID chain :: s.committed, active := s.active,
         nextKey := s.nextKey + 1,
         events := s.events ++
           [Ev.prepareEv (mkKey s.nextKey (chainID chain)) (chainID chain.dropLast),
            Ev.applyEv (arts.getLast?.getD dummyArtifact).blob.digest,
            Ev.commitEv (chainID chain) (mkKey s.nextKey (chainID chain))] },
       none) := by
  rw [show (n:Nat) + 2 = (n+1)+1 from rfl, applyArtifacts_succ]
  exact snapLoop_single_ok f n arts chain _ _ _ s dd hka hkc hp hcid hfa hdd

/-! ## Claim C5 -/

/-- C5: when the chain's snapshot is absent and the parent chain's
snapshot is absent as well while the grandparent exists (or is the empty
root), the apply of the full sequence prepares the last layer, receives
Not-Found, recursively builds the all-but-last prefix, retries the last
layer and succeeds: the final store contains snapshots for the prefix
chain and the full chain on top of the untouched pre-existing entries, so
a caller may request a suffix chain without materializing every prefix
first. -/
theorem C5_lazy_ancestor_repair (f : Descriptor → Except Err Descriptor) (n : Nat)
    (arts : List Artifact) (digs : List Digest) (s : SnapState) (ddP ddN : Descriptor)
    (hdigs : (arts.map fun a => a.blob.digest) = digs)
    (hlen : 1 < arts.length)
    (hc : chainID digs ∉ s.committed)
    (hpm : chainID digs.dropLast ∉ s.committed)
    (hpe : chainID digs.dropLast ≠ emptyChainID)
    (hg : chainID digs.dropLast.dropLast = emptyChainID ∨
      chainID digs.dropLast.dropLast ∈ s.committed)
    (hk0a : mkKey s.nextKey (chainID digs) ∉ s.active)
    (hk0c : mkKey s.nextKey (chainID digs) ∉ s.committed)
    (hk1a : mkKey (s.nextKey + 1) (chainID digs.dropLast) ∉ s.active)
    (hk1c : mkKey (s.nextKey + 1) (chainID digs.dropLast) ∉ s.committed)
    (hk2a : mkKey (s.nextKey + 2) (chainID digs) ∉ s.active)
    (hk2c : mkKey (s.nextKey + 2) (chainID digs) ∉ s.committed)
    (hk2p : mkKey (s.nextKey + 2) (chainID digs) ≠ chainID digs.dropLast)
    (hcp : chainID digs ≠ chainID digs.dropLast)
    (hfP : f ((arts.dropLast.getLast?.getD dummyArtifact).blob) = Except.ok ddP)
    (hdP : ddP.digest = (arts.dropLast.getLast?.getD dummyArtifact).blob.digest)
    (hfN : f ((arts.getLast?.getD dummyArtifact).blob) = Except.ok ddN)
    (hdN : ddN.digest = (arts.getLast?.getD dummyArtifact).blob.digest) :
    ApplyArtifactsWithOpts (snapOps f) (n + 4) arts s =
      ({ committed := chainID digs :: chainID digs.dropLast :: s.committed,
         active := s.active, nextKey := s.nextKey + 3,
         events := s.events ++
           [Ev.statEv (chainID digs),
            Ev.prepareEv (mkKey s.nextKey (chainID digs)) (chainID digs.dropLast),
            Ev.prepareEv (mkKey (s.nextKey + 1) (chainID digs.dropLast))
              (chainID digs.dropLast.dropLast),
            Ev.applyEv (arts.dropLast.getLast?.getD dummyArtifact).blob.digest,
            Ev.commitEv (chainID digs.dropLast)
              (mkKey (s.nextKey + 1) (chainID digs.dropLast)),
            Ev.prepareEv (mkKey (s.nextKey + 2) (chainID digs)) (chainID digs.dropLast),
            Ev.applyEv (arts.getLast?.getD dummyArtifact).blob.digest,
            Ev.commitEv (chainID digs) (mkKey (s.nextKey + 2) (chainID digs))] },
       Except.ok (chainID digs)) := by
  subst hdigs
  simp only [ApplyArtifactsWithOpts, show (snapOps f).stat = statOp from rfl,
    statOp_missing hc]
  simp only [errIsNotFound, beq_self_eq_true, if_true, ite_true]
  rw [show (n:Nat) + 4 = (n+3)+1 from rfl, applyArtifacts_succ]
  rw [show (n:Nat) + 3 = (n+2)+1 from rfl]
  have hfk0 : (snapOps f).freshKey
      (logEv s (Ev.statEv (chainID (arts.map fun a => a.blob.digest))))
      (chainID (arts.map fun a => a.blob.digest)) =
      ({ logEv s (Ev.statEv (chainID (arts.map fun a => a.blob.digest))) with
          nextKey := s.nextKey + 1 },
       mkKey s.nextKey (chainID (arts.map fun a => a.blob.digest))) := rfl
  have hprep0 := @prepareOp_notFound
    { logEv s (Ev.statEv (chainID (arts.map fun a => a.blob.digest))) with
        nextKey := s.nextKey + 1 }
    (mkKey s.nextKey (chainID (arts.map fun a => a.blob.digest)))
    (chainID (arts.map fun a => a.blob.digest).dropLast) hk0a hk0c hpe hpm
  have hrec := snapBuild_single_ok f n arts.dropLast
    (arts.map fun a => a.blob.digest).dropLast
    (logEv { logEv s (Ev.statEv (chainID (arts.map fun a => a.blob.digest))) with
        nextKey := s.nextKey + 1 }
      (Ev.prepareEv (mkKey s.nextKey (chainID (arts.map fun a => a.blob.digest)))
        (chainID (arts.map fun a => a.blob.digest).dropLast)))
    ddP (by exact hk1a) (by exact hk1c) (by exact hg) (by exact hpm) hfP hdP
  rw [applyLoop_prep_notFound_rec_ok hfk0 hprep0 rfl hlen hrec]
  rw [show (n:Nat) + 2 = (n+1)+1 from rfl]
  rw [snapLoop_single_ok f (n+1) [] (arts.map fun a => a.blob.digest)
    (chainID (arts.map fun a => a.blob.digest).dropLast)
    (chainID (arts.map fun a => a.blob.digest)) (arts.getLast?.getD dummyArtifact) _ ddN
    hk2a (by simp only [List.mem_cons]; rintro (h | h); exact hk2p h; exact hk2c h)
    (Or.inr (List.mem_cons_self _ _))
    (by simp only [List.mem_cons]; rintro (h | h); exact hcp h; exact hc h)
    hfN hdN]
  simp [logEv, List.erase_cons_head]

/-- A store holding a snapshot for the one-layer chain only, as in the
lazy-ancestor-repair example of the spec. -/
def demoLazyS : SnapState := ⟨[chainID ["sha256:d0"]], [], 0, []⟩

/-- Witness for C5 at the spec's own example: the store has a snapshot
for the one-layer chain; requesting the three-layer chain creates the
two-layer and three-layer snapshots and reuses the existing one. -/
theorem C5_lazy_ancestor_repair_witness :
    ApplyArtifactsWithOpts (snapOps okApplier) (0 + 4) [demoA0, demoA1, demoA2]
        demoLazyS =
      ({ committed := chainID ["sha256:d0", "sha256:d1", "sha256:d2"] ::
           chainID (["sha256:d0", "sha256:d1", "sha256:d2"] : List Digest).dropLast ::
           demoLazyS.committed,
         active := demoLazyS.active, nextKey := demoLazyS.nextKey + 3,
         events := demoLazyS.events ++
           [Ev.statEv (chainID ["sha256:d0", "sha256:d1", "sha256:d2"]),
            Ev.prepareEv
              (mkKey demoLazyS.nextKey (chainID ["sha256:d0", "sha256:d1", "sha256:d2"]))
              (chainID (["sha256:d0", "sha256:d1", "sha256:d2"] : List Digest).dropLast),
            Ev.prepareEv
              (mkKey (demoLazyS.nextKey + 1)
                (chainID (["sha256:d0", "sha256:d1", "sha256:d2"] : List Digest).dropLast))
              (chainID (["sha256:d0", "sha256:d1", "sha256:d2"] : List Digest).dropLast.dropLast),
            Ev.applyEv ([demoA0, demoA1, demoA2].dropLast.getLast?.getD dummyArtifact).blob.digest,
            Ev.commitEv
              (chainID (["sha256:d0", "sha256:d1", "sha256:d2"] : List Digest).dropLast)
              (mkKey (demoLazyS.nextKey + 1)
                (chainID (["sha256:d0", "sha256:d1", "sha256:d2"] : List Digest).dropLast)),
            Ev.prepareEv
              (mkKey (demoLazyS.nextKey + 2)
                (chainID ["sha256:d0", "sha256:d1", "sha256:d2"]))
              (chainID (["sha256:d0", "sha256:d1", "sha256:d2"] : List Digest).dropLast),
            Ev.applyEv ([demoA0, demoA1, demoA2].getLast?.getD dummyArtifact).blob.digest,
            Ev.commitEv (chainID ["sha256:d0", "sha256:d1", "sha256:d2"])
              (mkKey (demoLazyS.nextKey + 2)
                (chainID ["sha256:d0", "sha256:d1", "sha256:d2"]))] },
       Except.ok (chainID ["sha256:d0", "sha256:d1", "sha256:d2"])) :=
  C5_lazy_ancestor_repair okApplier 0 [demoA0, demoA1, demoA2]
    ["sha256:d0", "sha256:d1", "sha256:d2"] demoLazyS
    ⟨"sha256:d1", layerMediaType, 50⟩ ⟨"sha256:d2", layerMediaType, 10⟩
    rfl (by decide) (by decide) (by decide) (by decide) (Or.inr (by decide))
    (by decide) (by decide) (by decide) (by decide) (by decide) (by decide)
    (by decide) (by decide) rfl rfl rfl rfl

/-! ## Claim C6 -/

/-- Recognizer for prepare events in a trace. -/
def isPrepEv : Ev → Bool
  | Ev.prepareEv _ _ => true
  | _ => false

/-- Number of prepare calls recorded in a trace. -/
def countPrepare (t : List Ev) : Nat := (t.filter isPrepEv).length

/-- Pure trace-state collaborators whose very first prepare answers
Already-Exists (a build-key collision) and which otherwise succeed. -/
def collideOnce : Ops (List Ev) :=
  { stat := fun t cid => (t ++ [Ev.statEv cid], some ⟨ErrKind.notFound, "nf"⟩),
    prepare := fun t key parent =>
      (t ++ [Ev.prepareEv key parent],
       if countPrepare t = 0 then some ⟨ErrKind.alreadyExists, "key already exists"⟩
       else none),
    commit := fun t cid key => (t ++ [Ev.commitEv cid key], none),
    remove := fun t key => (t ++ [Ev.removeEv key], none),
    freshKey := fun t cid => (t, mkKey t.length cid),
    applierApply := fun t d =>
      (t ++ [Ev.applyEv d.digest], Except.ok ⟨d.digest, layerMediaType, d.size⟩) }

/-- C6 fails on the code for Prepare: against a store whose first prepare
answers Already-Exists, the build attempt does not stop — it retries
prepare under a fresh key (two prepare calls are recorded) and runs to a
successful commit, so an Already-Exists answer from Prepare is retried
rather than treated as terminal success (artifact.go lines 105-107). -/
theorem C6_counterexample_prepare_retried :
    countPrepare (applyArtifacts collideOnce 3 [demoA0] ["sha256:d0"] []).1 = 2 ∧
    (applyArtifacts collideOnce 3 [demoA0] ["sha256:d0"] []).2 = none := by
  exact ⟨by decide, by decide⟩

/-- C6 amended: an Already-Exists answer from Commit is treated as success
— the caller's error is nil, the commit is not retried, and the prepared
view is removed — while an Already-Exists answer from Prepare (a build-key
collision under the store contract) is retried with a freshly minted key;
when the retried prepare, apply and commit succeed the caller's error is
nil as well.  Neither case surfaces an error. -/
theorem C6_already_exists_amended {σ : Type} (O : Ops σ) :
    (∀ (n : Nat) (a : Artifact) (chain : List Digest) (s s1 s2 s3 s4 s5 : σ)
        (k : String) (dd : Descriptor) (e0 ec : Err),
      O.stat s (chainID (chain ++ [a.blob.digest])) = (s1, some e0) →
      errIsNotFound e0 = true →
      O.freshKey s1 (chainID (chain ++ [a.blob.digest])) = (s2, k) →
      O.prepare s2 k (chainID (chain ++ [a.blob.digest]).dropLast) = (s3, none) →
      O.applierApply s3 a.blob = (s4, Except.ok dd) →
      dd.digest = a.blob.digest →
      O.commit s4 (chainID (chain ++ [a.blob.digest])) k = (s5, some ec) →
      errIsAlreadyExists ec = true →
      ApplyArtifactWithOpts O (n + 2) a chain s = ((O.remove s5 k).1, Except.ok false)) ∧
    (∀ (n : Nat) (a : Artifact) (chain : List Digest) (s s1 s2 s3 s4 s5 s6 s7 : σ)
        (k1 k2 : String) (dd : Descriptor) (e0 e1 : Err),
      O.stat s (chainID (chain ++ [a.blob.digest])) = (s1, some e0) →
      errIsNotFound e0 = true →
      O.freshKey s1 (chainID (chain ++ [a.blob.digest])) = (s2, k1) →
      O.prepare s2 k1 (chainID (chain ++ [a.blob.digest]).dropLast) = (s3, some e1) →
      errIsAlreadyExists e1 = true →
      O.freshKey s3 (chainID (chain ++ [a.blob.digest])) = (s4, k2) →
      O.prepare s4 k2 (chainID (chain ++ [a.blob.digest]).dropLast) = (s5, none) →
      O.applierApply s5 a.blob = (s6, Except.ok dd) →
      dd.digest = a.blob.digest →
      O.commit s6 (chainID (chain ++ [a.blob.digest])) k2 = (s7, none) →
      ApplyArtifactWithOpts O (n + 3) a chain s = (s7, Except.ok true)) := by
  constructor
  · intro n a chain s s1 s2 s3 s4 s5 k dd e0 ec hstat hnf0 hfk hprep ha heq hcom hae
    have hrun : applyArtifacts O (n + 2) [a] (chain ++ [a.blob.digest]) s1 =
        ((O.remove s5 k).1, some (wrapErr ("failed to commit snapshot " ++ k) ec)) := by
      rw [show (n:Nat) + 2 = (n+1)+1 from rfl, applyArtifacts_succ,
        applyLoop_prep_ok hfk hprep]
      exact afterPrepare_commit_error ha heq hcom
    exact applyArtifactWithOpts_swallow hstat hnf0 hrun (by simp [hae])
  · intro n a chain s s1 s2 s3 s4 s5 s6 s7 k1 k2 dd e0 e1 hstat hnf0 hfk1 hprep1 hae1
      hfk2 hprep2 ha heq hcom
    have hrun : applyArtifacts O (n + 3) [a] (chain ++ [a.blob.digest]) s1 =
        (s7, none) := by
      rw [show (n:Nat) + 3 = (n+2)+1 from rfl, applyArtifacts_succ]
      rw [show (n:Nat) + 2 = (n+1)+1 from rfl]
      rw [applyLoop_prep_already hfk1 hprep1 hae1]
      rw [applyLoop_prep_ok hfk2 hprep2]
      exact afterPrepare_commit_ok ha heq hcom
    exact applyArtifactWithOpts_applied hstat hnf0 hrun

/-- Collaborators whose commit always answers Already-Exists (another
builder won the race) and whose remove fails, over a call-counting
state. -/
def commitRaceOps : Ops Nat :=
  { stat := fun m _ => (m + 1, some ⟨ErrKind.notFound, "nf"⟩),
    prepare := fun m _ _ => (m + 1, none),
    commit := fun m _ _ => (m + 1, some ⟨ErrKind.alreadyExists, "snapshot exists"⟩),
    remove := fun m _ => (m + 1, some (mkErr "remove failed")),
    freshKey := fun m _ => (m, "raceKey"),
    applierApply := fun m d => (m + 1, Except.ok ⟨d.digest, layerMediaType, d.size⟩) }

/-- Witness for the amended C6: a lost commit race yields a nil error and
result false; a prepare key collision is retried under a fresh key and
yields a nil error and result true. -/
theorem C6_already_exists_amended_witness :
    (ApplyArtifactWithOpts commitRaceOps 2 demoA0 [] 0).2 = Except.ok false ∧
    (ApplyArtifactWithOpts collideOnce 3 demoA0 [] []).2 = Except.ok true := by
  constructor
  · rw [show (2:Nat) = 0 + 2 from rfl,
      (C6_already_exists_amended commitRaceOps).1 0 demoA0 [] 0 1 1 2 3 4 "raceKey"
        ⟨"sha256:d0", layerMediaType, 100⟩ ⟨ErrKind.notFound, "nf"⟩
        ⟨ErrKind.alreadyExists, "snapshot exists"⟩ rfl rfl rfl rfl rfl rfl rfl rfl]
  · rw [show (3:Nat) = 0 + 3 from rfl,
      (C6_already_exists_amended collideOnce).2 0 demoA0 [] []
        [Ev.statEv (chainID ["sha256:d0"])] [Ev.statEv (chainID ["sha256:d0"])]
        [Ev.statEv (chainID ["sha256:d0"]),
         Ev.prepareEv (mkKey 1 (chainID ["sha256:d0"])) emptyChainID]
        [Ev.statEv (chainID ["sha256:d0"]),
         Ev.prepareEv (mkKey 1 (chainID ["sha256:d0"])) emptyChainID]
        [Ev.statEv (chainID ["sha256:d0"]),
         Ev.prepareEv (mkKey 1 (chainID ["sha256:d0"])) emptyChainID,
         Ev.prepareEv (mkKey 2 (chainID ["sha256:d0"])) emptyChainID]
        [Ev.statEv (chainID ["sha256:d0"]),
         Ev.prepareEv (mkKey 1 (chainID ["sha256:d0"])) emptyChainID,
         Ev.prepareEv (mkKey 2 (chainID ["sha256:d0"])) emptyChainID,
         Ev.applyEv "sha256:d0"]
        [Ev.statEv (chainID ["sha256:d0"]),
         Ev.prepareEv (mkKey 1 (chainID ["sha256:d0"])) emptyChainID,
         Ev.prepareEv (mkKey 2 (chainID ["sha256:d0"])) emptyChainID,
         Ev.applyEv "sha256:d0",
         Ev.commitEv (chainID ["sha256:d0"]) (mkKey 2 (chainID ["sha256:d0"]))]
        (mkKey 1 (chainID ["sha256:d0"])) (mkKey 2 (chainID ["sha256:d0"]))
        ⟨"sha256:d0", layerMediaType, 100⟩ ⟨ErrKind.notFound, "nf"⟩
        ⟨ErrKind.alreadyExists, "key already exists"⟩
        (by decide) rfl (by decide) (by decide) rfl (by decide) (by decide)
        (by decide) rfl (by decide)]

/-! ## Claim C8 -/

/-- C8: `IsUnpacked` recomputes the root chain ID from the ordered layer
digests and performs exactly one snapshot-store stat: the committed and
active sets and the key counter are unchanged and the trace gains exactly
the one stat event; the result is true exactly when the stat succeeds and
false with a nil error when it reports Not-Found. -/
theorem C8_isUnpacked_single_stat_no_mutation :
    ∀ (diffs : List Digest) (s : SnapState),
      ((IsUnpacked (Except.ok diffs) s).1.committed = s.committed ∧
       (IsUnpacked (Except.ok diffs) s).1.active = s.active ∧
       (IsUnpacked (Except.ok diffs) s).1.nextKey = s.nextKey ∧
       (IsUnpacked (Except.ok diffs) s).1.events =
         s.events ++ [Ev.statEv (chainID diffs)]) ∧
      ((IsUnpacked (Except.ok diffs) s).2 = Except.ok true ↔
        chainID diffs ∈ s.committed) ∧
      (chainID diffs ∉ s.committed →
        (IsUnpacked (Except.ok diffs) s).2 = Except.ok false) := by
  intro diffs s
  by_cases h : chainID diffs ∈ s.committed
  · rw [show IsUnpacked (Except.ok diffs) s =
        (logEv s (Ev.statEv (chainID diffs)), Except.ok true) from by
      simp only [IsUnpacked, statOp_found h]]
    simp [logEv, h]
  · rw [show IsUnpacked (Except.ok diffs) s =
        (logEv s (Ev.statEv (chainID diffs)), Except.ok false) from by
      simp only [IsUnpacked, statOp_missing h]
      rfl]
    simp [logEv, h]

/-- Witness for C8: on a store holding only the one-layer chain,
`IsUnpacked` answers true for that chain and false for a two-layer
chain. -/
theorem C8_isUnpacked_single_stat_no_mutation_witness :
    (IsUnpacked (Except.ok ["sha256:d0"]) demoLazyS).2 = Except.ok true ∧
    (IsUnpacked (Except.ok ["sha256:d0", "sha256:d1"]) demoLazyS).2 = Except.ok false :=
  ⟨(C8_isUnpacked_single_stat_no_mutation ["sha256:d0"] demoLazyS).2.1.mpr (by decide),
   (C8_isUnpacked_single_stat_no_mutation ["sha256:d0", "sha256:d1"] demoLazyS).2.2
     (by decide)⟩

/-! ## Inversion lemmas: a successful run must have committed -/

theorem statOp_some_inv {s : SnapState} {cid : String} {s1 : SnapState} {e : Err}
    (h : statOp s cid = (s1, some e)) : cid ∉ s.committed := by
  unfold statOp at h
  split at h
  · simp at h
  · assumption

theorem commitOp_none_commits {s : SnapState} {cid key : String} {s' : SnapState}
    (h : commitOp s cid key = (s', none)) : cid ∈ s'.committed := by
  simp only [commitOp] at h
  split at h
  · simp at h
  · split at h
    · have h1 := congrArg Prod.fst h
      simp only at h1
      rw [← h1]
      exact List.mem_cons_self _ _
    · simp at h

theorem afterPrepare_none_commits (f : Descriptor → Except Err Descriptor)
    (s : SnapState) (k : String) (cid : Digest) (artifact : Artifact) (s' : SnapState)
    (h : afterPrepare (snapOps f) s k cid artifact = (s', none)) :
    cid ∈ s'.committed := by
  unfold afterPrepare at h
  rw [show (snapOps f).applierApply s artifact.blob =
      (logEv s (Ev.applyEv artifact.blob.digest), f artifact.blob) from rfl] at h
  cases hfb : f artifact.blob with
  | error e =>
      rw [hfb] at h
      simp [deferredCleanup] at h
  | ok dd =>
      rw [hfb] at h
      dsimp only at h
      by_cases hd : dd.digest = artifact.blob.digest
      · rw [if_pos hd] at h
        rcases hco : commitOp (logEv s (Ev.applyEv artifact.blob.digest)) cid k with ⟨s2, rc⟩
        rw [show (snapOps f).commit = commitOp from rfl, hco] at h
        cases rc with
        | some e => simp [deferredCleanup] at h
        | none =>
            have h1 := congrArg Prod.fst h
            simp only at h1
            rw [← h1]
            exact commitOp_none_commits hco
      · rw [if_neg hd] at h
        simp [deferredCleanup] at h

theorem applyLoop_none_commits (f : Descriptor → Except Err Descriptor) :
    ∀ (fuel : Nat) (arts : List Artifact) (chain : List Digest) (parent cid : Digest)
      (artifact : Artifact) (s s' : SnapState),
      applyLoop (snapOps f) fuel arts chain parent cid artifact s = (s', none) →
      cid ∈ s'.committed := by
  intro fuel
  induction fuel with
  | zero =>
      intro arts chain parent cid artifact s s' h
      simp [applyLoop] at h
  | succ m ih =>
      intro arts chain parent cid artifact s s' h
      simp only [applyLoop] at h
      rw [show (snapOps f).freshKey s cid =
          ({ s with nextKey := s.nextKey + 1 }, mkKey s.nextKey cid) from rfl] at h
      dsimp only at h
      rcases hp : prepareOp { s with nextKey := s.nextKey + 1 }
          (mkKey s.nextKey cid) parent with ⟨s2, r⟩
      rw [show (snapOps f).prepare = prepareOp from rfl, hp] at h
      cases r with
      | none =>
          dsimp only at h
          exact afterPrepare_none_commits f s2 (mkKey s.nextKey cid) cid artifact s' h
      | some e =>
          dsimp only at h
          by_cases hc1 : errIsNotFound e = true ∧ 1 < arts.length
          · rw [if_pos hc1] at h
            rcases hr : applyArtifacts (snapOps f) m arts.dropLast chain.dropLast s2
              with ⟨s3, r2⟩
            rw [hr] at h
            cases r2 with
            | none =>
                dsimp only at h
                exact ih [] chain parent cid artifact s3 s' h
            | some e2 =>
                dsimp only at h
                by_cases hA : errIsAlreadyExists e2 = true
                · rw [if_pos hA] at h
                  exact ih [] chain parent cid artifact s3 s' h
                · rw [if_neg hA] at h
                  simp at h
          · rw [if_neg hc1] at h
            by_cases hA : errIsAlreadyExists e = true
            · rw [if_pos hA] at h
              exact ih arts chain parent cid artifact s2 s' h
            · rw [if_neg hA] at h
              simp at h

theorem applyArtifactWithOpts_true_inv (f : Descriptor → Except Err Descriptor)
    (fuel : Nat) (a : Artifact) (chain : List Digest) (s s' : SnapState)
    (h : ApplyArtifactWithOpts (snapOps f) fuel a chain s = (s', Except.ok true)) :
    chainID (chain ++ [a.blob.digest]) ∉ s.committed ∧
    chainID (chain ++ [a.blob.digest]) ∈ s'.committed := by
  simp only [ApplyArtifactWithOpts] at h
  rcases hs : statOp s (chainID (chain ++ [a.blob.digest])) with ⟨s1, r0⟩
  rw [show (snapOps f).stat = statOp from rfl, hs] at h
  cases r0 with
  | none => simp at h
  | some e =>
      dsimp only at h
      by_cases hnf : errIsNotFound e = true
      · rw [if_pos hnf] at h
        refine ⟨statOp_some_inv hs, ?_⟩
        rcases hr : applyArtifacts (snapOps f) fuel [a]
            (chain ++ [a.blob.digest]) s1 with ⟨s2, r2⟩
        rw [hr] at h
        cases r2 with
        | some e2 =>
            dsimp only at h
            by_cases hA : errIsAlreadyExists e2 = true
            · rw [if_pos hA] at h; simp at h
            · rw [if_neg hA] at h; simp at h
        | none =>
            dsimp only at h
            have h1 := congrArg Prod.fst h
            simp only at h1
            rw [← h1]
            cases fuel with
            | zero => simp [applyArtifacts] at hr
            | succ m =>
                rw [applyArtifacts_succ] at hr
                exact applyLoop_none_commits f m [a] (chain ++ [a.blob.digest]) _ _ _ s1 s2 hr
      · rw [if_neg hnf] at h
        simp at h

/-! ## Claim C10 -/

/-- C10 fails on the code for the Prepare clause: against a store whose
first prepare answers Already-Exists, `ApplyArtifactWithOpts` does not
return (false, nil) — it retries prepare under a fresh key, commits, and
returns (true, nil); so losing a Prepare to Already-Exists does not
produce the claimed result. -/
theorem C10_counterexample_prepare_already_exists_returns_true :
    (ApplyArtifactWithOpts collideOnce 3 demoA0 [] []).2 = Except.ok true ∧
    countPrepare (ApplyArtifactWithOpts collideOnce 3 demoA0 [] []).1 = 2 := by
  exact ⟨by decide, by decide⟩

/-- C10 amended: `ApplyArtifactWithOpts` returns (true, nil) exactly when
this call itself applied the layer and committed the snapshot — forward:
a fresh successful build returns (true, nil) with the chain ID newly
committed and the commit recorded in the trace; converse: whenever the
result is (true, nil), for every applier behavior and initial store
state, the chain ID was absent from the committed set at entry and is
committed in the final state, so the snapshot was created by this very
call.  It returns (false, nil) when the snapshot existed at the initial
stat and when Commit answers Already-Exists (a Prepare Already-Exists
answer is a key collision that is retried and does not by itself
determine the result); and the unpack driver writes the per-layer
uncompressed label exactly when the call returned true. -/
theorem C10_applied_flag_and_label {σ : Type} (O : Ops σ) :
    (∀ (f : Descriptor → Except Err Descriptor) (fuel : Nat) (a : Artifact)
        (chain : List Digest) (s : SnapState),
      chainID (chain ++ [a.blob.digest]) ∈ s.committed →
      ApplyArtifactWithOpts (snapOps f) fuel a chain s =
        (logEv s (Ev.statEv (chainID (chain ++ [a.blob.digest]))), Except.ok false)) ∧
    (∀ (f : Descriptor → Except Err Descriptor) (n : Nat) (a : Artifact)
        (chain : List Digest) (s : SnapState) (dd : Descriptor),
      chainID (chain ++ [a.blob.digest]) ∉ s.committed →
      mkKey s.nextKey (chainID (chain ++ [a.blob.digest])) ∉ s.active →
      mkKey s.nextKey (chainID (chain ++ [a.blob.digest])) ∉ s.committed →
      (chainID (chain ++ [a.blob.digest]).dropLast = emptyChainID ∨
        chainID (chain ++ [a.blob.digest]).dropLast ∈ s.committed) →
      f a.blob = Except.ok dd →
      dd.digest = a.blob.digest →
      ApplyArtifactWithOpts (snapOps f) (n + 2) a chain s =
        ({ committed := chainID (chain ++ [a.blob.digest]) :: s.committed,
           active := s.active, nextKey := s.nextKey + 1,
           events := s.events ++
             [Ev.statEv (chainID (chain ++ [a.blob.digest])),
              Ev.prepareEv (mkKey s.nextKey (chainID (chain ++ [a.blob.digest])))
                (chainID (chain ++ [a.blob.digest]).dropLast),
              Ev.applyEv a.blob.digest,
              Ev.commitEv (chainID (chain ++ [a.blob.digest]))
                (mkKey s.nextKey (chainID (chain ++ [a.blob.digest])))] },
         Except.ok true)) ∧
    (∀ (n : Nat) (a : Artifact) (chain : List Digest) (s s1 s2 s3 s4 s5 : σ)
        (k : String) (dd : Descriptor) (e0 ec : Err),
      O.stat s (chainID (chain ++ [a.blob.digest])) = (s1, some e0) →
      errIsNotFound e0 = true →
      O.freshKey s1 (chainID (chain ++ [a.blob.digest])) = (s2, k) →
      O.prepare s2 k (chainID (chain ++ [a.blob.digest]).dropLast) = (s3, none) →
      O.applierApply s3 a.blob = (s4, Except.ok dd) →
      dd.digest = a.blob.digest →
      O.commit s4 (chainID (chain ++ [a.blob.digest])) k = (s5, some ec) →
      errIsAlreadyExists ec = true →
      ApplyArtifactWithOpts O (n + 2) a chain s = ((O.remove s5 k).1, Except.ok false)) ∧
    (∀ (f : Descriptor → Except Err Descriptor) (fuel : Nat) (a : Artifact)
        (chain : List Digest) (u : UnpackSt) (s1 : SnapState) (b : Bool),
      ApplyArtifactWithOpts (snapOps f) fuel a chain u.snap = (s1, Except.ok b) →
      unpackLayersLoop f fuel [a] chain u =
        ({ snap := s1,
           labels := if b then u.labels ++ [(a.blob.digest, a.blob.digest)]
             else u.labels }, none)) ∧
    (∀ (f : Descriptor → Except Err Descriptor) (fuel : Nat) (a : Artifact)
        (chain : List Digest) (s s' : SnapState),
      ApplyArtifactWithOpts (snapOps f) fuel a chain s = (s', Except.ok true) →
      chainID (chain ++ [a.blob.digest]) ∉ s.committed ∧
      chainID (chain ++ [a.blob.digest]) ∈ s'.committed) := by
  refine ⟨?_, ?_, ?_, ?_, ?_⟩
  · intro f fuel a chain s h
    exact applyArtifactWithOpts_stat_hit (statOp_found h)
  · intro f n a chain s dd hcid hka hkc hp hfa hdd
    have hrun := snapBuild_single_ok f n [a] (chain ++ [a.blob.digest])
      (logEv s (Ev.statEv (chainID (chain ++ [a.blob.digest])))) dd
      (by exact hka) (by exact hkc) (by exact hp) (by exact hcid)
      (by exact hfa) (by exact hdd)
    have hmain := applyArtifactWithOpts_applied
      (show (snapOps f).stat s (chainID (chain ++ [a.blob.digest])) = _ from
        statOp_missing hcid) rfl hrun
    rw [hmain]
    simp [logEv]
  · intro n a chain s s1 s2 s3 s4 s5 k dd e0 ec hstat hnf0 hfk hprep ha heq hcom hae
    have hrun : applyArtifacts O (n + 2) [a] (chain ++ [a.blob.digest]) s1 =
        ((O.remove s5 k).1, some (wrapErr ("failed to commit snapshot " ++ k) ec)) := by
      rw [show (n:Nat) + 2 = (n+1)+1 from rfl, applyArtifacts_succ,
        applyLoop_prep_ok hfk hprep]
      exact afterPrepare_commit_error ha heq hcom
    exact applyArtifactWithOpts_swallow hstat hnf0 hrun (by simp [hae])
  · intro f fuel a chain u s1 b h
    simp only [unpackLayersLoop, h]
  · intro f fuel a chain s s' h
    exact applyArtifactWithOpts_true_inv f fuel a chain s s' h

/-- Witness for the amended C10: the stat-hit and commit-race cases return
false, a fresh build returns true and commits, the unpack loop writes
the uncompressed label for a layer whose call returned true, and a run
returning (true, nil) is shown (via the converse direction) to have
started without the chain ID committed and ended with it committed. -/
theorem C10_applied_flag_and_label_witness :
    (ApplyArtifactWithOpts (snapOps okApplier) 1 demoA0 [] demoLazyS).2 =
      Except.ok false ∧
    (ApplyArtifactWithOpts (snapOps okApplier) (0 + 2) demoA0 [] demoS0).2 =
      Except.ok true ∧
    (ApplyArtifactWithOpts commitRaceOps (0 + 2) demoA0 [] 0).2 = Except.ok false ∧
    (unpackLayersLoop okApplier (0 + 2) [demoA0] [] ⟨demoS0, []⟩).1.labels =
      [("sha256:d0", "sha256:d0")] ∧
    (chainID ([] ++ [demoA0.blob.digest]) ∉ demoS0.committed ∧
      chainID ([] ++ [demoA0.blob.digest]) ∈
        (ApplyArtifactWithOpts (snapOps okApplier) 2 demoA0 [] demoS0).1.committed) := by
  refine ⟨?_, ?_, ?_, ?_, ?_⟩
  · rw [(C10_applied_flag_and_label commitRaceOps).1 okApplier 1 demoA0 [] demoLazyS
      (by decide)]
  · rw [(C10_applied_flag_and_label commitRaceOps).2.1 okApplier 0 demoA0 [] demoS0
      ⟨"sha256:d0", layerMediaType, 100⟩ (by decide) (by decide) (by decide)
      (Or.inl (by decide)) (by decide) (by decide)]
  · rw [(C10_applied_flag_and_label commitRaceOps).2.2.1 0 demoA0 [] 0 1 1 2 3 4
      "raceKey" ⟨"sha256:d0", layerMediaType, 100⟩ ⟨ErrKind.notFound, "nf"⟩
      ⟨ErrKind.alreadyExists, "snapshot exists"⟩ rfl rfl rfl rfl rfl rfl rfl rfl]
  · rw [(C10_applied_flag_and_label commitRaceOps).2.2.2.1 okApplier (0 + 2) demoA0 []
      ⟨demoS0, []⟩
      ⟨[chainID ["sha256:d0"]], [], 1,
        [Ev.statEv (chainID ["sha256:d0"]),
         Ev.prepareEv (mkKey 0 (chainID ["sha256:d0"])) emptyChainID,
         Ev.applyEv "sha256:d0",
         Ev.commitEv (chainID ["sha256:d0"]) (mkKey 0 (chainID ["sha256:d0"]))]⟩
      true (by decide)]
    decide
  · exact (C10_applied_flag_and_label commitRaceOps).2.2.2.2 okApplier 2 demoA0 []
      demoS0 (ApplyArtifactWithOpts (snapOps okApplier) 2 demoA0 [] demoS0).1
      (by decide)

end Artifacts
